import Mathlib

/-!
Verification of the `context-container` library (TypeScript).

Shallow embedding conventions:
* Plugin-reference identities, singleton-class identities and scope
  identities are opaque values compared by identity in the source
  (JS `Map` keys, `===`); we model each identity as a `Nat`.
* A JS value that may be `null`/`undefined` is modelled as `Option V`
  (`none` = nullish).
* Code that throws is modelled with `Except String`, carrying the
  thrown message.
* `Date` timestamps are modelled as `Nat` (milliseconds since epoch).

The repository ships `src/private/PluginCollection.ts` and
`src/private/ContextContainerFactoryImpl.ts` (the capability-token
mechanism and the factory); `src/private/ContextContainerImpl.ts`
(the container's `memoize`, `getSingleton` and `timestamp` delegation)
is not in the tree — only its public interface, tests and callers are.
Definitions for that missing part are marked `Modelled from the spec:`.
-/

namespace ContextContainer

/-- An association-list model of a JS `Map`: `mapSet` replaces the binding
of an existing key in place, otherwise appends, matching `Map.prototype.set`. -/
def mapSet {α : Type} (m : List (Nat × α)) (k : Nat) (v : α) : List (Nat × α) :=
  match m with
  | [] => [(k, v)]
  | (k', v') :: rest => if k' = k then (k, v) :: rest else (k', v') :: mapSet rest k v

/-- `Map.prototype.get`: the value bound to `k`, or `none` (JS `undefined`)
when `k` is absent. -/
def mapGet {α : Type} (m : List (Nat × α)) (k : Nat) : Option α :=
  match m with
  | [] => none
  | (k', v') :: rest => if k' = k then some v' else mapGet rest k

/-- `PluginSpec<T>` from `src/public/ContextContainer.ts`: a pair of a
reference and an implementation.  The implementation slot is `Option V`
because a JS caller can supply `null`/`undefined` there. -/
structure PluginSpec (V : Type) where
  reference : Nat
  implementation : Option V

/-- `PluginCollection` from `src/private/PluginCollection.ts`: its single
field `plugins` is a `Map` from references to implementations. -/
structure PluginCollection (V : Type) where
  plugins : List (Nat × Option V)

/-- The `PluginCollection` constructor: iterates over the spec list in
order and calls `this.plugins.set(plugin.reference, plugin.implementation)`
for each spec. -/
def PluginCollection.ofSpecs {V : Type} (specs : List (PluginSpec V)) : PluginCollection V :=
  ⟨specs.foldl (fun m sp => mapSet m sp.reference sp.implementation) []⟩

/-- `PluginCollection.get`:
`const plugin = this.plugins.get(ref); if (plugin == null) throw new Error('Plugin not set'); return plugin`.
The nullish check `plugin == null` is true both when the reference is absent
(`get` returned `undefined`) and when a nullish implementation was stored. -/
def PluginCollection.get {V : Type} (c : PluginCollection V) (ref : Nat) : Except String V :=
  match mapGet c.plugins ref with
  | some (some v) => Except.ok v
  | some none => Except.error "Plugin not set"
  | none => Except.error "Plugin not set"

/-- `assertConstructedByContextContainer` from
`src/private/ContextContainerFactoryImpl.ts`:
`if (token !== TOKEN) throw new Error('Attempted to construct ContextModuleClass directly')`.
The process-wide secret `TOKEN` (`Math.random()` at module load) is passed
explicitly as the first argument of the model. -/
def assertConstructedByContextContainer (TOKEN token : Nat) : Except String Unit :=
  if token ≠ TOKEN then
    Except.error "Attempted to construct ContextModuleClass directly"
  else
    Except.ok ()

/-- `ProofOfBeingCalledByContextContainer`: holds the token it was
constructed with. -/
structure ProofOfBeingCalledByContextContainer where
  token : Nat

/-- The `ProofOfBeingCalledByContextContainer` constructor: stores the token
and runs `assertConstructedByContextContainer(this.token)`, so construction
throws unless the supplied value equals the process secret. -/
def mkProof (TOKEN token : Nat) :
    Except String ProofOfBeingCalledByContextContainer :=
  match assertConstructedByContextContainer TOKEN token with
  | Except.ok _ => Except.ok ⟨token⟩
  | Except.error e => Except.error e

/-- `ContextualSingleton` from `src/public/ContextContainer.ts`: its
constructor takes a `ProofOfBeingCalledByContextContainer` and discards it. -/
structure ContextualSingleton where
  mk' ::

/-- Direct construction of a `ContextualSingleton` subtype outside the
container: the caller must first produce the required proof object from the
token value it presents, then invoke the singleton initializer with it. -/
def constructSingletonDirectly (TOKEN token : Nat) : Except String ContextualSingleton :=
  match mkProof TOKEN token with
  | Except.ok _ => Except.ok ContextualSingleton.mk'
  | Except.error e => Except.error e

/-- Modelled from the spec: the Memoization Cache owned by
`ContextContainerImpl` (file `src/private/ContextContainerImpl.ts` is not in
the tree).  Entries are keyed by the pair (scope identity, key string). -/
structure MemoCache (W : Type) where
  entries : List ((Nat × String) × W)

/-- Modelled from the spec: cache lookup for a `(scope, key)` pair. -/
def MemoCache.lookupEntry {W : Type} (c : MemoCache W) (s : Nat) (k : String) : Option W :=
  match c.entries.find? (fun e => e.1 = (s, k)) with
  | some e => some e.2
  | none => none

/-- Modelled from the spec: `memoize(scope, key, fn)` of the missing
`ContextContainerImpl`.  On a hit it returns the cached value without
touching `fn`; on a miss it invokes `fn` once and, when `fn` returns a value
(`Except.ok`), stores that value before returning — synchronously, with no
intervening suspension point, so a pending result is stored while still
pending.  When `fn` throws synchronously (`Except.error`) nothing is stored
and the error propagates unchanged.  `fn` runs over an explicit external
state `σ` so that its invocations are observable. -/
def memoize {W E σ : Type} (c : MemoCache W) (s : Nat) (k : String)
    (fn : σ → σ × Except E W) (st : σ) : MemoCache W × σ × Except E W :=
  match c.lookupEntry s k with
  | some v => (c, st, Except.ok v)
  | none =>
    match fn st with
    | (st', Except.ok v) => (⟨((s, k), v) :: c.entries⟩, st', Except.ok v)
    | (st', Except.error e) => (c, st', Except.error e)

/-- Modelled from the spec: the state of one pending/settled result
(a JS promise).  Promises are identified by allocation order. -/
structure PromiseHeap (E V : Type) where
  next : Nat
  settledList : List (Nat × Except E V)
  calls : Nat

/-- Modelled from the spec: a memoized computation `fn` that starts an
asynchronous operation and immediately returns its still-pending result:
it allocates a fresh promise identifier, records that `fn` was invoked once
more, and returns the promise without settling it. -/
def invokePendingFn {E V : Type} (h : PromiseHeap E V) :
    PromiseHeap E V × Except Empty Nat :=
  (⟨h.next + 1, h.settledList, h.calls + 1⟩, Except.ok h.next)

/-- Modelled from the spec: the eventual outcome of promise `p`, or `none`
while `p` is still pending. -/
def PromiseHeap.outcomeOf {E V : Type} (h : PromiseHeap E V) (p : Nat) :
    Option (Except E V) :=
  match h.settledList.find? (fun e => e.1 = p) with
  | some e => some e.2
  | none => none

/-- Modelled from the spec: promise `p` settles with outcome `o`
(success or failure), at some later scheduling point. -/
def PromiseHeap.settle {E V : Type} (h : PromiseHeap E V) (p : Nat) (o : Except E V) :
    PromiseHeap E V :=
  ⟨h.next, (p, o) :: h.settledList, h.calls⟩

/-- Modelled from the spec: the Singleton Registry owned by
`ContextContainerImpl`: a map from singleton-class identity to the
lazily-constructed instance.  Instances are JS objects compared by
reference; we model each instance as the value of a process-wide
allocation counter at the moment `new` ran, so distinct constructions
yield distinct identities. -/
structure SingletonRegistry where
  entries : List (Nat × Nat)

/-- Modelled from the spec: `getSingleton(SingletonClass)` of the missing
`ContextContainerImpl`.  Looks the class identity up in the registry; if
absent, constructs a new instance (with the Capability Token), stores it
under the class identity and returns it; if present, returns the stored
instance unchanged.  `alloc` is the process-wide allocation counter. -/
def getSingleton (reg : SingletonRegistry) (alloc : Nat) (cls : Nat) :
    SingletonRegistry × Nat × Nat :=
  match mapGet reg.entries cls with
  | some inst => (reg, alloc, inst)
  | none => (⟨mapSet reg.entries cls alloc⟩, alloc + 1, alloc)

/-- `ContextContainerImpl`'s state: the proof object, the plugin
collection, and (modelled from the spec) the singleton registry, the
memoization cache and the immutable creation timestamp.  `V` is the type of
plugin implementations, `W` the type of memoized values. -/
structure ContextContainerImpl (V W : Type) where
  proof : ProofOfBeingCalledByContextContainer
  plugins : PluginCollection V
  singletons : SingletonRegistry
  memoCache : MemoCache W
  timestamp : Nat

/-- `ContextContainerFactoryImpl.create` from
`src/private/ContextContainerFactoryImpl.ts`: builds
`new ContextContainerImpl(new ProofOfBeingCalledByContextContainer(TOKEN),
new PluginCollection(plugins), timestamp ?? new Date())`.  `now` models the
wall-clock value `new Date()` would produce at the moment of creation; the
empty singleton registry and memoization cache are modelled from the spec. -/
def create {V W : Type} (TOKEN : Nat) (specs : List (PluginSpec V))
    (timestamp : Option Nat) (now : Nat) : ContextContainerImpl V W :=
  { proof := ⟨TOKEN⟩
    plugins := PluginCollection.ofSpecs specs
    singletons := ⟨[]⟩
    memoCache := ⟨[]⟩
    timestamp := timestamp.getD now }

/-- `ContextContainer.getPlugin`: delegates to the plugin collection and
surfaces its result (value or thrown error) unchanged. -/
def ContextContainerImpl.getPlugin {V W : Type} (cc : ContextContainerImpl V W)
    (ref : Nat) : Except String V :=
  cc.plugins.get ref

/-- Modelled from the spec: `ContextContainer.getSingleton` delegates to the
singleton registry and stores the updated registry back; everything else in
the container, the timestamp included, is untouched. -/
def ContextContainerImpl.getSingletonCC {V W : Type} (cc : ContextContainerImpl V W)
    (alloc : Nat) (cls : Nat) : ContextContainerImpl V W × Nat × Nat :=
  let r := getSingleton cc.singletons alloc cls
  ({ cc with singletons := r.1 }, r.2.1, r.2.2)

/-- Modelled from the spec: `ContextContainer.memoize` delegates to the
memoization cache and stores the updated cache back; everything else in the
container, the timestamp included, is untouched. -/
def ContextContainerImpl.memoizeCC {V W E σ : Type} (cc : ContextContainerImpl V W)
    (s : Nat) (k : String) (fn : σ → σ × Except E W) (st : σ) :
    ContextContainerImpl V W × σ × Except E W :=
  let r := memoize cc.memoCache s k fn st
  ({ cc with memoCache := r.1 }, r.2.1, r.2.2)

/-! ### Helper lemmas about the `Map` model -/

theorem mapGet_mapSet_self {α : Type} (m : List (Nat × α)) (k : Nat) (v : α) :
    mapGet (mapSet m k v) k = some v := by
  induction m with
  | nil => simp [mapSet, mapGet]
  | cons hd tl ih =>
    obtain ⟨k', v'⟩ := hd
    by_cases hk : k' = k
    · simp [mapSet, mapGet, hk]
    · simp [mapSet, mapGet, hk, ih]

theorem mapGet_mapSet_ne {α : Type} (m : List (Nat × α)) (k k' : Nat) (v : α)
    (h : k' ≠ k) : mapGet (mapSet m k v) k' = mapGet m k' := by
  induction m with
  | nil => simp [mapSet, mapGet, Ne.symm h]
  | cons hd tl ih =>
    obtain ⟨k0, v0⟩ := hd
    by_cases hk : k0 = k
    · subst hk
      simp [mapSet, mapGet, h, Ne.symm h]
    · simp [mapSet, mapGet, hk, ih]

theorem mapGet_foldl_noRef {V : Type} (specs : List (PluginSpec V))
    (m : List (Nat × Option V)) (ref : Nat)
    (h : ∀ sp ∈ specs, sp.reference ≠ ref) :
    mapGet (specs.foldl (fun acc sp => mapSet acc sp.reference sp.implementation) m) ref
      = mapGet m ref := by
  induction specs generalizing m with
  | nil => rfl
  | cons sp rest ih =>
    have hsp : sp.reference ≠ ref := h sp (List.mem_cons_self sp rest)
    have hrest : ∀ q ∈ rest, q.reference ≠ ref := fun q hq => h q (List.mem_cons_of_mem sp hq)
    simp only [List.foldl_cons]
    rw [ih _ hrest, mapGet_mapSet_ne _ _ _ _ (Ne.symm hsp)]

/-! ### Claim theorems about the plugin registry -/

/-- C4. For every container `c` and plugin reference `r` for which no
implementation was supplied to the factory for this container,
`c.getPlugin(r)` fails with the "plugin not registered" error
(`Plugin not set`), and the error is surfaced to the caller unchanged
(`getPlugin` is exactly the registry's `get`, nothing is swallowed or
wrapped). -/
theorem getPlugin_unregistered_fails {V W : Type} (TOKEN : Nat)
    (specs : List (PluginSpec V)) (ts : Option Nat) (now ref : Nat)
    (h : ∀ sp ∈ specs, sp.reference ≠ ref) :
    (create TOKEN specs ts now : ContextContainerImpl V W).getPlugin ref
        = Except.error "Plugin not set" ∧
    (create TOKEN specs ts now : ContextContainerImpl V W).getPlugin ref
        = (create TOKEN specs ts now : ContextContainerImpl V W).plugins.get ref := by
  refine ⟨?_, rfl⟩
  have hnone : mapGet (PluginCollection.ofSpecs specs).plugins ref = none := by
    simpa [PluginCollection.ofSpecs, mapGet] using
      mapGet_foldl_noRef specs [] ref h
  simp [create, ContextContainerImpl.getPlugin, PluginCollection.get, hnone]

/-- Witness for C4: an empty spec list registers nothing, and `getPlugin`
on a fresh container fails with the `Plugin not set` error. -/
theorem getPlugin_unregistered_fails_witness :
    (∀ sp ∈ ([] : List (PluginSpec Nat)), sp.reference ≠ 0) ∧
    ((create 0 [] none 7 : ContextContainerImpl Nat Nat).getPlugin 0
        = Except.error "Plugin not set" ∧
     (create 0 [] none 7 : ContextContainerImpl Nat Nat).getPlugin 0
        = (create 0 [] none 7 : ContextContainerImpl Nat Nat).plugins.get 0) :=
  ⟨by simp, getPlugin_unregistered_fails 0 [] none 7 0 (by simp)⟩

/-- C5. A container created via `create([(r, i)])` returns the registered
implementation `i` itself for `r`; and two containers built with different
implementations for the same reference each return their own implementation
independently. -/
theorem getPlugin_identity_preserving {V W : Type} (TOKEN TOKEN' : Nat) (r : Nat)
    (iA iB : V) (ts ts' : Option Nat) (now now' : Nat) :
    (create TOKEN [⟨r, some iA⟩] ts now : ContextContainerImpl V W).getPlugin r
        = Except.ok iA ∧
    (create TOKEN' [⟨r, some iB⟩] ts' now' : ContextContainerImpl V W).getPlugin r
        = Except.ok iB := by
  constructor <;>
    simp [create, ContextContainerImpl.getPlugin, PluginCollection.get,
      PluginCollection.ofSpecs, mapSet, mapGet]

/-- C7. When the spec list passed to the factory contains several specs with
the same reference, later specs overwrite earlier ones: `getPlugin` returns
the implementation of the last spec carrying that reference (the specs after
it carry other references). -/
theorem getPlugin_duplicate_last_wins {V W : Type} (TOKEN : Nat)
    (pre post : List (PluginSpec V)) (r : Nat) (v : V) (ts : Option Nat) (now : Nat)
    (h : ∀ sp ∈ post, sp.reference ≠ r) :
    (create TOKEN (pre ++ ⟨r, some v⟩ :: post) ts now :
        ContextContainerImpl V W).getPlugin r = Except.ok v := by
  have hlast : mapGet (PluginCollection.ofSpecs (pre ++ ⟨r, some v⟩ :: post)).plugins r
      = some (some v) := by
    simp only [PluginCollection.ofSpecs, List.foldl_append, List.foldl_cons]
    rw [mapGet_foldl_noRef post _ r h, mapGet_mapSet_self]
  simp [create, ContextContainerImpl.getPlugin, PluginCollection.get, hlast]

/-- Witness for C7: two specs with the same reference `0`; `getPlugin 0`
returns the implementation of the second (last) spec. -/
theorem getPlugin_duplicate_last_wins_witness :
    (∀ sp ∈ ([] : List (PluginSpec Nat)), sp.reference ≠ 0) ∧
    (create 0 [⟨0, some 1⟩, ⟨0, some 2⟩] none 7 :
        ContextContainerImpl Nat Nat).getPlugin 0 = Except.ok 2 :=
  ⟨by simp, getPlugin_duplicate_last_wins 0 [⟨0, some 1⟩] [] 0 2 none 7 (by simp)⟩

/-- C10. Registering a nullish (`null`/`undefined`) implementation under a
reference makes `getPlugin` throw the `Plugin not set` error even though a
spec for that reference was supplied: the nullish check in
`PluginCollection.get` cannot distinguish a registered nullish
implementation from an unregistered reference (both produce the identical
error). -/
theorem getPlugin_nullish_implementation_fails {V W : Type} (TOKEN : Nat) (r : Nat)
    (ts : Option Nat) (now : Nat) :
    (create TOKEN [⟨r, none⟩] ts now : ContextContainerImpl V W).getPlugin r
        = Except.error "Plugin not set" ∧
    (create TOKEN [⟨r, none⟩] ts now : ContextContainerImpl V W).getPlugin r
        = (create TOKEN ([] : List (PluginSpec V)) ts now :
            ContextContainerImpl V W).getPlugin r := by
  constructor <;>
    simp [create, ContextContainerImpl.getPlugin, PluginCollection.get,
      PluginCollection.ofSpecs, mapSet, mapGet]

/-! ### Claim theorem about the capability token -/

/-- C3. Constructing a `ContextualSingleton` subtype directly, outside
`getSingleton`, without presenting the process Capability Token fails with
the construction error: the initializer requires the proof object built from
the secret value, and the wrapper check throws when the supplied value
differs from the process secret. -/
theorem construct_singleton_directly_fails (TOKEN token : Nat)
    (h : token ≠ TOKEN) :
    constructSingletonDirectly TOKEN token
      = Except.error "Attempted to construct ContextModuleClass directly" := by
  simp [constructSingletonDirectly, mkProof, assertConstructedByContextContainer, h]

/-- Witness for C3: the token `4` (as in the repository's error test) differs
from a process secret of `0`, and direct construction fails. -/
theorem construct_singleton_directly_fails_witness :
    (4 : Nat) ≠ 0 ∧
    constructSingletonDirectly 0 4
      = Except.error "Attempted to construct ContextModuleClass directly" :=
  ⟨by decide, construct_singleton_directly_fails 0 4 (by decide)⟩

/-! ### Claim theorems about the memoization cache -/

theorem lookupEntry_insert_self {W : Type} (es : List ((Nat × String) × W))
    (s : Nat) (k : String) (v : W) :
    (⟨((s, k), v) :: es⟩ : MemoCache W).lookupEntry s k = some v := by
  simp [MemoCache.lookupEntry, List.find?]

/-- C2. After `c.memoize(s,k,f1)` has returned a value from a cache miss, a
subsequent `c.memoize(s,k,f2)` returns the result of `f1` and never invokes
`f2`: the second call leaves the container, `f2`'s external state, and the
result independent of `f2` entirely. -/
theorem memoize_first_call_wins {V W E σ : Type} (cc : ContextContainerImpl V W)
    (s : Nat) (k : String) (v1 : W) (f2 : σ → σ × Except E W) (st2 : σ)
    (hmiss : cc.memoCache.lookupEntry s k = none) :
    (cc.memoizeCC s k (fun u : Unit => (u, (Except.ok v1 : Except E W))) ()).2.2
        = Except.ok v1 ∧
    (cc.memoizeCC s k (fun u : Unit => (u, (Except.ok v1 : Except E W))) ()).1.memoizeCC
        s k f2 st2
      = ((cc.memoizeCC s k (fun u : Unit => (u, (Except.ok v1 : Except E W))) ()).1,
          st2, Except.ok v1) := by
  have e1 : cc.memoizeCC s k (fun u : Unit => (u, (Except.ok v1 : Except E W))) ()
      = ({ cc with memoCache := ⟨((s, k), v1) :: cc.memoCache.entries⟩ }, (),
          Except.ok v1) := by
    simp [ContextContainerImpl.memoizeCC, memoize, hmiss]
  rw [e1]
  refine ⟨rfl, ?_⟩
  simp [ContextContainerImpl.memoizeCC, memoize, lookupEntry_insert_self]

/-- Witness for C2: on a fresh container, memoizing `1` under `(0,"k")` and
then calling `memoize` again with a different function returns `1` and leaves
that function's counter untouched. -/
theorem memoize_first_call_wins_witness :
    ((create 0 [] none 7 : ContextContainerImpl Nat Nat).memoCache.lookupEntry 0 "k"
        = none) ∧
    (((create 0 [] none 7 : ContextContainerImpl Nat Nat).memoizeCC 0 "k"
        (fun u : Unit => (u, (Except.ok 1 : Except Unit Nat))) ()).2.2
        = Except.ok 1 ∧
     ((create 0 [] none 7 : ContextContainerImpl Nat Nat).memoizeCC 0 "k"
        (fun u : Unit => (u, (Except.ok 1 : Except Unit Nat))) ()).1.memoizeCC
        0 "k" (fun n : Nat => (n + 1, (Except.ok 2 : Except Unit Nat))) 5
      = (((create 0 [] none 7 : ContextContainerImpl Nat Nat).memoizeCC 0 "k"
        (fun u : Unit => (u, (Except.ok 1 : Except Unit Nat))) ()).1,
          5, Except.ok 1)) :=
  ⟨rfl, memoize_first_call_wins (create 0 [] none 7) 0 "k" 1
    (fun n : Nat => (n + 1, (Except.ok 2 : Except Unit Nat))) 5 rfl⟩

/-- C6. When `fn` throws synchronously on a cache miss, `memoize` propagates
the failure and stores nothing: the container (cache included) is returned
unchanged, and a later call with the same `(scope, key)` pair invokes its
function again — the retry runs its function (counter incremented) and
caches its fresh result. -/
theorem memoize_sync_throw_not_cached {V W E : Type} (cc : ContextContainerImpl V W)
    (s : Nat) (k : String) (e : E) (st : Nat)
    (hmiss : cc.memoCache.lookupEntry s k = none) :
    cc.memoizeCC s k (fun n : Nat => (n + 1, (Except.error e : Except E W))) st
        = (cc, st + 1, Except.error e) ∧
    ∀ (v : W) (st' : Nat),
      cc.memoizeCC s k (fun n : Nat => (n + 1, (Except.ok v : Except E W))) st'
        = ({ cc with memoCache := ⟨((s, k), v) :: cc.memoCache.entries⟩ },
            st' + 1, Except.ok v) := by
  constructor
  · simp [ContextContainerImpl.memoizeCC, memoize, hmiss]
  · intro v st'
    simp [ContextContainerImpl.memoizeCC, memoize, hmiss]

/-- Witness for C6: on a fresh container a throwing function propagates its
error and leaves the container unchanged; the subsequent retry runs and
caches `3`. -/
theorem memoize_sync_throw_not_cached_witness :
    ((create 0 [] none 7 : ContextContainerImpl Nat Nat).memoCache.lookupEntry 0 "k"
        = none) ∧
    ((create 0 [] none 7 : ContextContainerImpl Nat Nat).memoizeCC 0 "k"
        (fun n : Nat => (n + 1, (Except.error () : Except Unit Nat))) 4
        = ((create 0 [] none 7 : ContextContainerImpl Nat Nat), 5, Except.error ()) ∧
     ∀ (v : Nat) (st' : Nat),
      (create 0 [] none 7 : ContextContainerImpl Nat Nat).memoizeCC 0 "k"
        (fun n : Nat => (n + 1, (Except.ok v : Except Unit Nat))) st'
        = ({ (create 0 [] none 7 : ContextContainerImpl Nat Nat) with
              memoCache := ⟨[((0, "k"), v)]⟩ }, st' + 1, Except.ok v)) :=
  ⟨rfl, memoize_sync_throw_not_cached (create 0 [] none 7) 0 "k" () 4 rfl⟩

/-- C1. Single-flight memoization: with `fn` returning a still-pending
result, the first `memoize` call stores that pending result in the cache
before any suspension point (the entry is present, still pending, the moment
the call returns); a second call issued before the result settles attaches
to the very same pending result without re-invoking `fn` (`fn` ran exactly
once in total), and when the promise later settles, both callers observe
the same outcome. -/
theorem memoize_single_flight {V Vv E : Type} (cc : ContextContainerImpl V Nat)
    (s : Nat) (k : String) (h : PromiseHeap E Vv)
    (hmiss : cc.memoCache.lookupEntry s k = none)
    (hpending : h.outcomeOf h.next = none)
    (cc1 : ContextContainerImpl V Nat) (h1 : PromiseHeap E Vv) (r1 : Except Empty Nat)
    (heq1 : cc.memoizeCC s k invokePendingFn h = (cc1, h1, r1))
    (cc2 : ContextContainerImpl V Nat) (h2 : PromiseHeap E Vv) (r2 : Except Empty Nat)
    (heq2 : cc1.memoizeCC s k invokePendingFn h1 = (cc2, h2, r2)) :
    r1 = Except.ok h.next ∧ r2 = Except.ok h.next ∧
    h2.calls = h.calls + 1 ∧
    cc1.memoCache.lookupEntry s k = some h.next ∧
    h1.outcomeOf h.next = none ∧
    ∀ o : Except E Vv, (h2.settle h.next o).outcomeOf h.next = some o := by
  have e1 : cc.memoizeCC s k invokePendingFn h
      = ({ cc with memoCache := ⟨((s, k), h.next) :: cc.memoCache.entries⟩ },
          ⟨h.next + 1, h.settledList, h.calls + 1⟩, Except.ok h.next) := by
    simp [ContextContainerImpl.memoizeCC, memoize, hmiss, invokePendingFn]
  rw [e1] at heq1
  simp only [Prod.mk.injEq] at heq1
  obtain ⟨rfl, rfl, rfl⟩ := heq1
  have e2 : ({ cc with memoCache := ⟨((s, k), h.next) :: cc.memoCache.entries⟩ } :
        ContextContainerImpl V Nat).memoizeCC s k invokePendingFn
        ⟨h.next + 1, h.settledList, h.calls + 1⟩
      = ({ cc with memoCache := ⟨((s, k), h.next) :: cc.memoCache.entries⟩ },
          ⟨h.next + 1, h.settledList, h.calls + 1⟩, Except.ok h.next) := by
    simp [ContextContainerImpl.memoizeCC, memoize, lookupEntry_insert_self]
  rw [e2] at heq2
  simp only [Prod.mk.injEq] at heq2
  obtain ⟨rfl, rfl, rfl⟩ := heq2
  refine ⟨rfl, rfl, rfl, lookupEntry_insert_self _ _ _ _, ?_, ?_⟩
  · simpa [PromiseHeap.outcomeOf] using hpending
  · intro o
    simp [PromiseHeap.settle, PromiseHeap.outcomeOf, List.find?]

/-- Witness for C1: on a fresh container and a fresh promise heap, the first
`memoize` call caches pending promise `0` and runs `fn` once; the second
call attaches to promise `0` without running `fn` again, and settling
promise `0` gives both callers the same outcome. -/
theorem memoize_single_flight_witness :
    ((⟨⟨0⟩, ⟨[]⟩, ⟨[]⟩, ⟨[]⟩, 7⟩ :
        ContextContainerImpl Nat Nat).memoCache.lookupEntry 0 "k" = none) ∧
    ((⟨0, [], 0⟩ : PromiseHeap Unit Nat).outcomeOf 0 = none) ∧
    ((⟨⟨0⟩, ⟨[]⟩, ⟨[]⟩, ⟨[]⟩, 7⟩ : ContextContainerImpl Nat Nat).memoizeCC 0 "k"
        invokePendingFn (⟨0, [], 0⟩ : PromiseHeap Unit Nat)
      = (⟨⟨0⟩, ⟨[]⟩, ⟨[]⟩, ⟨[((0, "k"), 0)]⟩, 7⟩, ⟨1, [], 1⟩, Except.ok 0)) ∧
    ((⟨⟨0⟩, ⟨[]⟩, ⟨[]⟩, ⟨[((0, "k"), 0)]⟩, 7⟩ :
        ContextContainerImpl Nat Nat).memoizeCC 0 "k"
        invokePendingFn (⟨1, [], 1⟩ : PromiseHeap Unit Nat)
      = (⟨⟨0⟩, ⟨[]⟩, ⟨[]⟩, ⟨[((0, "k"), 0)]⟩, 7⟩, ⟨1, [], 1⟩, Except.ok 0)) ∧
    ((Except.ok 0 : Except Empty Nat) = Except.ok 0 ∧
     (Except.ok 0 : Except Empty Nat) = Except.ok 0 ∧
     (⟨1, [], 1⟩ : PromiseHeap Unit Nat).calls = 0 + 1 ∧
     (⟨⟨0⟩, ⟨[]⟩, ⟨[]⟩, ⟨[((0, "k"), 0)]⟩, 7⟩ :
        ContextContainerImpl Nat Nat).memoCache.lookupEntry 0 "k" = some 0 ∧
     (⟨1, [], 1⟩ : PromiseHeap Unit Nat).outcomeOf 0 = none ∧
     ∀ o : Except Unit Nat,
       ((⟨1, [], 1⟩ : PromiseHeap Unit Nat).settle 0 o).outcomeOf 0 = some o) :=
  ⟨rfl, rfl, rfl, rfl,
    memoize_single_flight ⟨⟨0⟩, ⟨[]⟩, ⟨[]⟩, ⟨[]⟩, 7⟩ 0 "k" ⟨0, [], 0⟩ rfl rfl
      ⟨⟨0⟩, ⟨[]⟩, ⟨[]⟩, ⟨[((0, "k"), 0)]⟩, 7⟩ ⟨1, [], 1⟩ (Except.ok 0) rfl
      ⟨⟨0⟩, ⟨[]⟩, ⟨[]⟩, ⟨[((0, "k"), 0)]⟩, 7⟩ ⟨1, [], 1⟩ (Except.ok 0) rfl⟩

/-! ### Claim theorems about the singleton registry -/

/-- C8. Within one container, repeated `getSingleton` calls for the same
class return the reference-identical instance; and two different containers,
each freshly created by the factory, yield distinct instances of the same
class (no cross-container sharing). -/
theorem getSingleton_idempotent_and_isolated {V W : Type}
    (cc : ContextContainerImpl V W) (alloc cls : Nat) (TOKEN TOKEN' : Nat)
    (specsA specsB : List (PluginSpec V)) (tsA tsB : Option Nat)
    (nowA nowB al : Nat) :
    ((cc.getSingletonCC alloc cls).1.getSingletonCC
        (cc.getSingletonCC alloc cls).2.1 cls).2.2
      = (cc.getSingletonCC alloc cls).2.2 ∧
    ((create TOKEN specsA tsA nowA : ContextContainerImpl V W).getSingletonCC
        al cls).2.2
      ≠ ((create TOKEN' specsB tsB nowB : ContextContainerImpl V W).getSingletonCC
          (((create TOKEN specsA tsA nowA : ContextContainerImpl V W).getSingletonCC
              al cls).2.1) cls).2.2 := by
  constructor
  · rcases hm : mapGet cc.singletons.entries cls with _ | inst
    · simp [ContextContainerImpl.getSingletonCC, getSingleton, hm, mapGet_mapSet_self]
    · simp [ContextContainerImpl.getSingletonCC, getSingleton, hm]
  · simp [ContextContainerImpl.getSingletonCC, getSingleton, create, mapGet]

/-! ### Claim theorem about the timestamp -/

/-- C9. The factory fixes the container's timestamp to the supplied value
when one is given and otherwise to the wall-clock time at creation, and the
timestamp never changes over the container's lifetime: the state-updating
operations `getSingleton` and `memoize` leave it untouched (`getPlugin`
does not touch the container's state at all). -/
theorem timestamp_fixed_and_immutable {V W E σ : Type} (TOKEN : Nat)
    (specs : List (PluginSpec V)) (t now : Nat)
    (cc : ContextContainerImpl V W) (alloc cls : Nat) (s : Nat) (k : String)
    (fn : σ → σ × Except E W) (st : σ) :
    (create TOKEN specs (some t) now : ContextContainerImpl V W).timestamp = t ∧
    (create TOKEN specs none now : ContextContainerImpl V W).timestamp = now ∧
    (cc.getSingletonCC alloc cls).1.timestamp = cc.timestamp ∧
    (cc.memoizeCC s k fn st).1.timestamp = cc.timestamp :=
  ⟨rfl, rfl, rfl, rfl⟩

end ContextContainer
